import Mathlib

/-!
# Weather Now (`src/App.jsx`): a shallow embedding

* JavaScript values are modelled by `JVal`. Numbers are exact rationals (no `NaN`, no
  infinities, no negative zero) that are stored, compared with zero and passed on, never
  computed with: the binary64 arithmetic of `cToF`, `roundTo` and `formatTemp` (lines 47-57)
  is not embedded. Strings are sequences of code points; an object is the list of its own
  fields, each key once, in no meaningful order.
* A handler is a function from the world before it to the world after it: it reads the state
  cells of the render that created it and writes new cell values, and it runs to completion
  before the next event.
* The network answers through an `Env`; the requests sent are logged in `World.sent`.
* Where JavaScript would throw, the doc comment of the definition says where control goes.
-/

namespace WeatherNow

/-- JavaScript values that the component handles: JSON data plus `undefined`. -/
inductive JVal where
  | undefined : JVal
  | null : JVal
  | bool (b : Bool) : JVal
  | num (q : ℚ) : JVal
  | str (s : String) : JVal
  | arr (xs : List JVal) : JVal
  | obj (fields : List (String × JVal)) : JVal

namespace JVal

/-- ToBoolean: `undefined`, `null`, `false`, `0` and the empty string are falsy. -/
def truthy : JVal → Bool
  | undefined => false
  | null => false
  | bool b => b
  | num q => decide (q ≠ 0)
  | str s => decide (s ≠ "")
  | arr _ => true
  | obj _ => true

/-- Whether a value is `null` or `undefined`. -/
def nullish : JVal → Bool
  | undefined => true
  | null => true
  | _ => false

end JVal

/-- Own-property lookup in an object's field list; a missing key reads as `undefined`. -/
def lookupField (k : String) : List (String × JVal) → JVal
  | [] => JVal.undefined
  | (k', v) :: rest => if k' = k then v else lookupField k rest

mutual
/-- Image of a value under `JSON.parse (JSON.stringify v)`, for a value in array or
property position: `undefined` array elements become `null`, `undefined` properties are dropped. -/
def JVal.toJson : JVal → JVal
  | JVal.undefined => JVal.null
  | JVal.arr xs => JVal.arr (toJsonList xs)
  | JVal.obj fs => JVal.obj (toJsonFields fs)
  | v => v
/-- Elementwise `toJson`. -/
def toJsonList : List JVal → List JVal
  | [] => []
  | x :: xs => x.toJson :: toJsonList xs
/-- Fieldwise `toJson`, dropping `undefined`-valued properties. -/
def toJsonFields : List (String × JVal) → List (String × JVal)
  | [] => []
  | (_, JVal.undefined) :: fs => toJsonFields fs
  | (k, v) :: fs => (k, v.toJson) :: toJsonFields fs
end

/-! ## String conversion of numbers -/

/-- Least `f` (searched upwards from the third argument, within the fuel) with `den ∣ 10 ^ f`. -/
def findScale : ℕ → ℕ → ℕ → ℕ
  | 0, _, f => f
  | fuel + 1, den, f => if 10 ^ f % den = 0 then f else findScale fuel den (f + 1)

/-- Strip trailing decimal zeros of `m`, counting them. -/
def stripZeros : ℕ → ℕ → ℕ → ℕ × ℕ
  | 0, m, z => (m, z)
  | fuel + 1, m, z => if m ≠ 0 ∧ m % 10 = 0 then stripZeros fuel (m / 10) (z + 1) else (m, z)

/-- ECMAScript `Number::toString` for a positive number with a finite decimal expansion:
with digits `s` (`k` of them, no trailing zero) and `q = s * 10 ^ (n - k)`, the number prints
plainly when `0 < n ≤ 21`, as `0.00ddd` when `-6 < n ≤ 0`, and in exponent form otherwise.
(The search for the expansion stops after 400 places.) -/
def posNumChars (q : ℚ) : List Char :=
  let f := findScale 400 q.den 0
  let m := q.num.natAbs * 10 ^ f / q.den
  let sz := stripZeros 400 m 0
  let ds := Nat.toDigits 10 sz.1
  let k : ℤ := ds.length
  let n : ℤ := k + sz.2 - f
  if k ≤ n ∧ n ≤ 21 then ds ++ List.replicate (n - k).toNat '0'
  else if 0 < n ∧ n ≤ 21 then ds.take n.toNat ++ '.' :: ds.drop n.toNat
  else if -6 < n ∧ n ≤ 0 then '0' :: '.' :: List.replicate (-n).toNat '0' ++ ds
  else
    let e := n - 1
    let mant := if ds.length = 1 then ds else ds.take 1 ++ '.' :: ds.drop 1
    mant ++ 'e' :: (if e < 0 then '-' else '+') :: Nat.toDigits 10 e.natAbs

/-- String conversion of a number inside a template literal, on its exact decimal value. It is
used only for the `id` of a disambiguation row. -/
def numToString (q : ℚ) : String :=
  if q = 0 then "0"
  else if q < 0 then String.mk ('-' :: posNumChars (-q))
  else String.mk (posNumChars q)

/-! ## Weather code table (`App.jsx` lines 9-45) -/

/-- One entry of `WEATHER_CODE_MAP`. -/
structure CodeEntry where
  text : String
  icon : String
  deriving DecidableEq

/-- The table `WEATHER_CODE_MAP`, keyed by integer weather code. -/
def WEATHER_CODE_MAP : List (ℤ × CodeEntry) :=
  [ (0, ⟨"Clear sky", "☀️"⟩),
    (1, ⟨"Mainly clear", "🌤️"⟩),
    (2, ⟨"Partly cloudy", "⛅"⟩),
    (3, ⟨"Overcast", "☁️"⟩),
    (45, ⟨"Fog", "🌫️"⟩),
    (48, ⟨"Depositing rime fog", "🌫️"⟩),
    (51, ⟨"Light drizzle", "🌦️"⟩),
    (53, ⟨"Moderate drizzle", "🌦️"⟩),
    (55, ⟨"Dense drizzle", "🌧️"⟩),
    (56, ⟨"Light freezing drizzle", "🌧️❄️"⟩),
    (57, ⟨"Dense freezing drizzle", "🌧️❄️"⟩),
    (61, ⟨"Slight rain", "🌧️"⟩),
    (63, ⟨"Moderate rain", "🌧️"⟩),
    (65, ⟨"Heavy rain", "🌧️"⟩),
    (66, ⟨"Light freezing rain", "🌧️❄️"⟩),
    (67, ⟨"Heavy freezing rain", "🌧️❄️"⟩),
    (71, ⟨"Slight snow fall", "❄️"⟩),
    (73, ⟨"Moderate snow fall", "❄️"⟩),
    (75, ⟨"Heavy snow fall", "❄️"⟩),
    (77, ⟨"Snow grains", "❄️"⟩),
    (80, ⟨"Slight rain showers", "🌦️"⟩),
    (81, ⟨"Moderate rain showers", "🌦️"⟩),
    (82, ⟨"Violent rain showers", "⛈️"⟩),
    (85, ⟨"Slight snow showers", "🌨️"⟩),
    (86, ⟨"Heavy snow showers", "🌨️"⟩),
    (95, ⟨"Thunderstorm", "⛈️"⟩),
    (96, ⟨"Thunderstorm with hail (small)", "⛈️🧊"⟩),
    (99, ⟨"Thunderstorm with hail (heavy)", "⛈️🧊"⟩) ]

/-- The keys of `WEATHER_CODE_MAP`. -/
def weatherCodes : List ℤ := WEATHER_CODE_MAP.map Prod.fst

/-- `weatherText(code)`: `WEATHER_CODE_MAP[code]?.text ?? "Unknown"`. -/
def weatherText (code : ℤ) : String :=
  match WEATHER_CODE_MAP.lookup code with
  | some e => e.text
  | none => "Unknown"

/-- `weatherIcon(code)`: `WEATHER_CODE_MAP[code]?.icon ?? "🌈"`. -/
def weatherIcon (code : ℤ) : String :=
  match WEATHER_CODE_MAP.lookup code with
  | some e => e.icon
  | none => "🌈"

/-! ## Reading JavaScript values -/

/-- Length of a string in UTF-16 code units, which is what `.length` reports. -/
def utf16Length (s : String) : ℕ :=
  (s.data.map (fun c => if c.val < 0x10000 then 1 else 2)).sum

/-- The read `v?.k` for the keys the component uses: an own field of an object, `length` and
`0` of an array or string, `undefined` otherwise (also when `v` is `null` or `undefined`).
For a receiver that is not nullish this is also the plain read `v.k`. -/
def JVal.prop (v : JVal) (k : String) : JVal :=
  match v with
  | JVal.obj fs => lookupField k fs
  | JVal.arr xs =>
      if k = "length" then JVal.num xs.length
      else if k = "0" then xs.headD JVal.undefined
      else JVal.undefined
  | JVal.str s =>
      if k = "length" then JVal.num (utf16Length s)
      else if k = "0" then (match s.data with
        | [] => JVal.undefined
        | c :: _ => JVal.str (String.mk [c]))
      else JVal.undefined
  | _ => JVal.undefined

/-- Strict equality `v === q` with a number literal `q`. -/
def JVal.isNum (v : JVal) (q : ℚ) : Bool :=
  match v with
  | JVal.num r => decide (r = q)
  | _ => false

/-- The operator `a ?? b`. -/
def JVal.coalesce (a b : JVal) : JVal := if a.nullish then b else a

/-- The operator `a || b`. -/
def JVal.orElse (a b : JVal) : JVal := if a.truthy then a else b

mutual
/-- String conversion of a value inside a template literal. -/
def JVal.toStr : JVal → String
  | JVal.undefined => "undefined"
  | JVal.null => "null"
  | JVal.bool b => if b then "true" else "false"
  | JVal.num q => numToString q
  | JVal.str s => s
  | JVal.arr xs => joinStr xs
  | JVal.obj _ => "[object Object]"
/-- Conversion of an array: elements joined by commas, nullish elements printing as empty. -/
def joinStr : List JVal → String
  | [] => ""
  | [x] => if x.nullish then "" else x.toStr
  | x :: y :: rest => (if x.nullish then "" else x.toStr) ++ "," ++ joinStr (y :: rest)
end

/-- Own enumerable properties copied by an object spread `{...v}`. (For a string the
properties are listed by character.) -/
def JVal.spread : JVal → List (String × JVal)
  | JVal.obj fs => fs
  | JVal.arr xs => xs.enum.map (fun ix => (toString ix.1, ix.2))
  | JVal.str s => s.data.enum.map (fun ix => (toString ix.1, JVal.str (String.mk [ix.2])))
  | _ => []

/-- Code points removed by `String.prototype.trim`: white space and line terminators. -/
def isJsSpace (c : Char) : Bool :=
  decide (c.val.toNat ∈ [0x9, 0xA, 0xB, 0xC, 0xD, 0x20, 0xA0, 0x1680, 0x2000, 0x2001, 0x2002,
    0x2003, 0x2004, 0x2005, 0x2006, 0x2007, 0x2008, 0x2009, 0x200A, 0x2028, 0x2029, 0x202F,
    0x205F, 0x3000, 0xFEFF])

/-- `String.prototype.trim`. -/
def jsTrim (s : String) : String :=
  String.mk ((s.data.dropWhile isJsSpace).reverse.dropWhile isJsSpace).reverse

/-! ## Component state, storage and network -/

/-- The `useState` cells of `App`. -/
structure State where
  city : JVal
  loading : Bool
  places : Option (List JVal)
  selected : JVal
  weather : JVal
  error : String
  unit : String

/-- A string held in `localStorage` under `wn_last`, seen through `JSON.parse`:
either text that `JSON.parse` rejects, or the JSON text of a value. -/
inductive StoredJson where
  | unparsable : StoredJson
  | json (v : JVal) : StoredJson

/-- The two `localStorage` entries; `none` is an absent key. -/
structure Storage where
  wn_last : Option StoredJson
  wn_unit : Option String

/-- The two requests the component sends: the geocoding search for a trimmed query
(`count=5&language=en&format=json`) and the forecast for a coordinate pair
(`current_weather=true&timezone=auto`). -/
inductive Request where
  | geocode (q : String) : Request
  | forecast (lat lon : JVal) : Request

/-- What `await fetch(url)` followed by `res.json()` yields: `fetch` rejects, or there is a
response with its `ok` flag and, when its body parses as JSON, the parsed value. -/
inductive FetchOutcome where
  | networkError : FetchOutcome
  | response (ok : Bool) (body : Option JVal) : FetchOutcome

/-- The environment of one handler run: the answer to each request, and whether
`localStorage.setItem` throws. -/
structure Env where
  net : Request → FetchOutcome
  setItemThrows : Bool

/-- Everything a handler can change: the state cells, the storage, and the requests sent
so far (oldest first). -/
structure World where
  ui : State
  store : Storage
  sent : List Request

/-- `JSON.stringify` of an object literal with the given fields, as later read back. -/
def jsonRecord (fields : List (String × JVal)) : StoredJson :=
  StoredJson.json (JVal.obj (toJsonFields fields))

/-- `localStorage.setItem("wn_last", ...)` inside `try { } catch { }`: a throw is ignored. -/
def saveLast (env : Env) (st : Storage) (r : StoredJson) : Storage :=
  if env.setItemThrows then st else { st with wn_last := some r }

/-- `fetchWeather(lat, lon, place)` (lines 151-192). `snap` holds the state cells of the
render that created the function: its reads of `selected` and `city` see those values. -/
def fetchWeather (env : Env) (snap : State) (lat lon place : JVal) (w : World) : World :=
  let ui1 : State := { w.ui with loading := true, error := "", weather := JVal.null }
  let sent := w.sent ++ [Request.forecast lat lon]
  match env.net (Request.forecast lat lon) with
  | FetchOutcome.response true (some data) =>
      if !data.truthy || !(data.prop "current_weather").truthy then
        { ui := { ui1 with error := "Weather data unavailable for this location.",
                           loading := false },
          store := w.store, sent := sent }
      else
        let payload := JVal.obj
          (((data.prop "current_weather").spread.filter (fun f => f.1 ≠ "place"))
            ++ [("place", place)])
        let record := jsonRecord
          [ ("name", ((place.prop "name").coalesce (snap.selected.prop "name")).coalesce snap.city),
            ("country", (place.prop "country").coalesce (snap.selected.prop "country")),
            ("admin1", (place.prop "admin1").coalesce (snap.selected.prop "admin1")),
            ("latitude", lat),
            ("longitude", lon) ]
        { ui := { ui1 with weather := payload, loading := false },
          store := saveLast env w.store record, sent := sent }
  | _ =>
      { ui := { ui1 with error := "Failed to fetch weather. Try again.", loading := false },
        store := w.store, sent := sent }

/-- The object literal `{ name: p.name, country: p.country, admin1: p.admin1, latitude:
p.latitude, longitude: p.longitude }` of lines 121-127 and 195-201. -/
def pickPlace (p : JVal) : JVal :=
  JVal.obj
    [ ("name", p.prop "name"), ("country", p.prop "country"), ("admin1", p.prop "admin1"),
      ("latitude", p.prop "latitude"), ("longitude", p.prop "longitude") ]

/-- One row of the disambiguation list (lines 132-140). -/
def formatRow (p : JVal) : JVal :=
  JVal.obj
    [ ("id", JVal.str ((p.prop "latitude").toStr ++ "_" ++ (p.prop "longitude").toStr
        ++ "_" ++ (p.prop "name").toStr)),
      ("name", p.prop "name"), ("country", p.prop "country"), ("admin1", p.prop "admin1"),
      ("latitude", p.prop "latitude"), ("longitude", p.prop "longitude"),
      ("population", p.prop "population") ]

/-- The `catch` of `handleSearch` followed by its `finally`. -/
def lookupFailed (w : World) : World :=
  { w with ui := { w.ui with
      error := "Failed to look up the city. Check your network and try again.",
      loading := false } }

/-- The body of `handleSearch` after `res.json()` returned `data` (lines 116-142), with the
`catch` and `finally` of lines 143-148. A property read on a nullish candidate and a call of
`map` on something that is not an array throw, and land in the `catch`. -/
def geoResults (env : Env) (snap : State) (data : JVal) (w : World) : World :=
  let results := data.prop "results"
  if !data.truthy || !results.truthy || (results.prop "length").isNum 0 then
    { w with ui := { w.ui with error := "No places found. Try a different query.",
                               places := some [], loading := false } }
  else if (results.prop "length").isNum 1 then
    let p := results.prop "0"
    if p.nullish then lookupFailed w
    else
      let o := pickPlace p
      let w1 := fetchWeather env snap (o.prop "latitude") (o.prop "longitude") o
        { w with ui := { w.ui with selected := o } }
      { w1 with ui := { w1.ui with loading := false } }
  else
    match results with
    | JVal.arr xs =>
        if xs.any JVal.nullish then lookupFailed w
        else { w with ui := { w.ui with places := some (xs.map formatRow), loading := false } }
    | _ => lookupFailed w

/-- The value of `q = city?.trim()` when it is a non-empty string: the query that
`handleSearch` sends. -/
def searchQuery (city : JVal) : Option String :=
  match city with
  | JVal.str s => if jsTrim s = "" then none else some (jsTrim s)
  | _ => none

/-- `handleSearch(e)` (lines 95-149), run on the state of the current render. When `city` is
neither a string nor nullish, `city?.trim()` throws after the four resets and nothing else
happens. -/
def handleSearch (env : Env) (w : World) : World :=
  let ui1 : State := { w.ui with error := "", weather := JVal.null, places := none,
                                 selected := JVal.null }
  match w.ui.city with
  | JVal.str s =>
      let q := jsTrim s
      if q = "" then { w with ui := { ui1 with error := "Enter a city name." } }
      else
        let w2 : World := { ui := { ui1 with loading := true }, store := w.store,
                            sent := w.sent ++ [Request.geocode q] }
        match env.net (Request.geocode q) with
        | FetchOutcome.response true (some data) => geoResults env w.ui data w2
        | _ => lookupFailed w2
  | JVal.undefined => { w with ui := { ui1 with error := "Enter a city name." } }
  | JVal.null => { w with ui := { ui1 with error := "Enter a city name." } }
  | _ => { w with ui := ui1 }

/-- `handleSelectPlace(p)` (lines 194-206); reading `p.name` of a nullish `p` throws before
any update. -/
def handleSelectPlace (env : Env) (p : JVal) (w : World) : World :=
  if p.nullish then w
  else
    let o := pickPlace p
    fetchWeather env w.ui (o.prop "latitude") (o.prop "longitude") o
      { w with ui := { w.ui with selected := o, places := none } }

/-- The effect of lines 91-93: the unit is mirrored to `wn_unit`. The effect has no
`try`/`catch`: a throwing `setItem` escapes it and React unmounts the component, so that
nothing is rendered any more. The cells and the storage are then as given here (the storage
as it was), and the events that follow in this development cannot occur in the browser: the
states reachable here include all the states the browser reaches. -/
def syncUnit (env : Env) (w : World) : World :=
  if env.setItemThrows then w
  else { w with store := { w.store with wn_unit := some w.ui.unit } }

/-- The state of the first render (lines 60-66); `unit` is `getItem("wn_unit") || "C"`. -/
def bootState (st : Storage) : State :=
  { city := JVal.str "", loading := false, places := none, selected := JVal.null,
    weather := JVal.null, error := "",
    unit := match st.wn_unit with
      | some u => if u = "" then "C" else u
      | none => "C" }

/-- The world at the first render. -/
def bootWorld (st : Storage) : World :=
  { ui := bootState st, store := st, sent := [] }

/-- The saved-place part of the mount effect (lines 70-84). -/
def loadLast (env : Env) (w : World) : World :=
  match w.store.wn_last with
  | some (StoredJson.json o) =>
      if (o.prop "latitude").truthy && (o.prop "longitude").truthy then
        fetchWeather env w.ui (o.prop "latitude") (o.prop "longitude") o
          { w with ui := { w.ui with city := (o.prop "name").orElse (JVal.str ""),
                                     selected := o } }
      else w
  | _ => w

/-- The mount effects (lines 69-93): load the saved place, re-read the saved unit, mirror
the unit to storage. -/
def mount (env : Env) (w : World) : World :=
  let w1 := loadLast env w
  let w2 : World :=
    match w.store.wn_unit with
    | some u => if u = "" then w1 else { w1 with ui := { w1.ui with unit := u } }
    | none => w1
  syncUnit env w2

/-- A click on a unit button: `setUnit(u)`, then the unit effect. -/
def toggleUnit (env : Env) (u : String) (w : World) : World :=
  syncUnit env { w with ui := { w.ui with unit := u } }

/-- Typing in the input: `setCity(e.target.value)`. -/
def typeCity (text : String) (w : World) : World :=
  { w with ui := { w.ui with city := JVal.str text } }

/-! ## What the render shows (lines 244-280) -/

/-- The error region is rendered: `error && ...`. -/
def errorShown (s : State) : Bool := decide (s.error ≠ "")

/-- The disambiguation list is rendered: `places && places.length > 0`. -/
def listShown (s : State) : Bool :=
  match s.places with
  | some rows => decide (0 < rows.length)
  | none => false

/-- The empty-results box is rendered: `places && places.length === 0`. -/
def emptyShown (s : State) : Bool :=
  match s.places with
  | some rows => decide (rows.length = 0)
  | none => false

/-- The weather card is rendered: `weather && ...`. -/
def weatherShown (s : State) : Bool := s.weather.truthy

/-! ## Events of the controller, run one at a time -/

/-- Bookkeeping that is not in the source: the answer to the last geocoding request, and
whether a candidate has been chosen since. -/
structure Ghost where
  lastGeo : Option FetchOutcome
  chosen : Bool

/-- The world together with the bookkeeping. -/
structure Sys where
  world : World
  ghost : Ghost

/-- The number of results of a geocoding answer: the length of its `results` array. -/
def resultCount : FetchOutcome → Option ℕ
  | FetchOutcome.response true (some data) =>
      (match data.prop "results" with
        | JVal.arr xs => some xs.length
        | _ => none)
  | _ => none

/-- The user events after mount: submitting the form, clicking the row with a given index of
the disambiguation list, clicking a unit button, typing in the input. Each carries the
environment its handler meets. -/
inductive Event where
  | search (env : Env) : Event
  | select (env : Env) (i : ℕ) : Event
  | unit (env : Env) (u : String) : Event
  | type (text : String) : Event

/-- The row a click with index `i` lands on, when the list renders such a row. -/
def clickedRow (s : State) (i : ℕ) : Option JVal :=
  match s.places with
  | some rows => rows.get? i
  | none => none

/-- One event, run to completion. -/
def step (e : Event) (s : Sys) : Sys :=
  match e with
  | Event.search env =>
      { world := handleSearch env s.world,
        ghost := match searchQuery s.world.ui.city with
          | some q => { lastGeo := some (env.net (Request.geocode q)), chosen := false }
          | none => s.ghost }
  | Event.select env i =>
      (match clickedRow s.world.ui i with
        | some p => { world := handleSelectPlace env p s.world,
                      ghost := { s.ghost with chosen := true } }
        | none => s)
  | Event.unit env u => { s with world := toggleUnit env u s.world }
  | Event.type text => { s with world := typeCity text s.world }

/-- The first render. -/
def bootSys (st : Storage) : Sys :=
  { world := bootWorld st, ghost := { lastGeo := none, chosen := false } }

/-- The first render followed by the mount effects. -/
def mountSys (env : Env) (st : Storage) : Sys :=
  { world := mount env (bootWorld st), ghost := { lastGeo := none, chosen := false } }

/-- States reachable from the first render by mount and then user events, one at a time. -/
inductive Reachable : Sys → Prop where
  | boot (st : Storage) : Reachable (bootSys st)
  | mounted (env : Env) (st : Storage) : Reachable (mountSys env st)
  | next (e : Event) (s : Sys) : Reachable s → Reachable (step e s)

/-- At most one of the disambiguation list, the weather card and the error region shows. -/
def atMostOneShown (s : State) : Prop :=
  ¬ (listShown s = true ∧ weatherShown s = true) ∧
  ¬ (listShown s = true ∧ errorShown s = true) ∧
  ¬ (weatherShown s = true ∧ errorShown s = true)

/-- Every row of the disambiguation list is an object the click handler can read. -/
def rowsReadable (s : State) : Prop :=
  ∀ rows, s.places = some rows → ∀ r ∈ rows, r.nullish = false

/-- The disambiguation list shows only after a geocoding answer with at least two results
and before a candidate is chosen. -/
def listJustified (s : Sys) : Prop :=
  listShown s.world.ui = true →
    ∃ o n, s.ghost.lastGeo = some o ∧ resultCount o = some n ∧ 2 ≤ n ∧ s.ghost.chosen = false

/-! ## Sample inputs -/

/-- An environment in which every request fails in transport. -/
def offlineEnv : Env :=
  { net := fun _ => FetchOutcome.networkError, setItemThrows := false }

/-- A forecast body: 15 degrees, overcast. -/
def overcastBody : JVal :=
  JVal.obj [("latitude", JVal.num (103 / 2)), ("longitude", JVal.num (-1 / 8)),
    ("current_weather", JVal.obj
      [("temperature", JVal.num 15), ("windspeed", JVal.num 12),
       ("winddirection", JVal.num 240), ("weathercode", JVal.num 3),
       ("time", JVal.str "2024-05-01T12:00")])]

/-- A geocoding candidate. -/
def londonResult : JVal :=
  JVal.obj [("name", JVal.str "London"), ("country", JVal.str "United Kingdom"),
    ("admin1", JVal.str "England"), ("latitude", JVal.num (5150853 / 100000)),
    ("longitude", JVal.num (-12574 / 100000)), ("population", JVal.num 7556900)]

/-- A geocoding candidate on the equator. -/
def equatorResult : JVal :=
  JVal.obj [("name", JVal.str "Mitad del Mundo"), ("country", JVal.str "Ecuador"),
    ("latitude", JVal.num 0), ("longitude", JVal.num (-7845 / 100))]

/-- An environment answering every geocoding request with the given body and every forecast
request with the overcast body. -/
def answeringEnv (geoBody : JVal) : Env :=
  { net := fun r =>
      (match r with
        | Request.geocode _ => FetchOutcome.response true (some geoBody)
        | Request.forecast _ _ => FetchOutcome.response true (some overcastBody)),
    setItemThrows := false }

/-- Geocoding finds London alone. -/
def londonEnv : Env := answeringEnv (JVal.obj [("results", JVal.arr [londonResult])])

/-- Geocoding finds nothing: the body has no `results` field. -/
def noMatchEnv : Env := answeringEnv (JVal.obj [("generationtime_ms", JVal.num (1 / 2))])

/-- Geocoding finds two candidates. -/
def twoMatchEnv : Env :=
  answeringEnv (JVal.obj [("results", JVal.arr [londonResult, equatorResult])])

/-- Geocoding finds the equator candidate alone. -/
def equatorEnv : Env := answeringEnv (JVal.obj [("results", JVal.arr [equatorResult])])

/-- An environment whose forecast answers are JSON without `current_weather`. -/
def unavailableEnv : Env :=
  { net := fun _ => FetchOutcome.response true (some (JVal.obj [("error", JVal.bool true)])),
    setItemThrows := false }

/-- An empty `localStorage`. -/
def emptyStore : Storage := { wn_last := none, wn_unit := none }

/-- A state showing London's weather, with the given text typed in the input since. -/
def londonShown (text : String) : World :=
  { ui := { city := JVal.str text, loading := false, places := none,
            selected := pickPlace londonResult,
            weather := JVal.obj
              [("temperature", JVal.num 15), ("windspeed", JVal.num 12),
               ("winddirection", JVal.num 240), ("weathercode", JVal.num 3),
               ("time", JVal.str "2024-05-01T12:00"), ("place", pickPlace londonResult)],
            error := "", unit := "C" },
    store :=
      { wn_last := some (jsonRecord
          [("name", JVal.str "London"), ("country", JVal.str "United Kingdom"),
           ("admin1", JVal.str "England"), ("latitude", JVal.num (5150853 / 100000)),
           ("longitude", JVal.num (-12574 / 100000))]),
        wn_unit := some "C" },
    sent := [] }

/-- The record `fetchWeather` stores for the equator candidate. -/
def equatorRecord : JVal :=
  JVal.obj [("name", JVal.str "Mitad del Mundo"), ("country", JVal.str "Ecuador"),
    ("latitude", JVal.num 0), ("longitude", JVal.num (-7845 / 100))]

/-- A `localStorage` holding the equator record. -/
def equatorStore : Storage :=
  { wn_last := some (StoredJson.json equatorRecord), wn_unit := some "C" }

/-- A run: mount on an empty storage, typing a query, and a search with two matches. -/
def sampleRun : Sys :=
  step (Event.search twoMatchEnv) (step (Event.type "Springfield") (mountSys londonEnv emptyStore))

/-! ## Weather code lookup -/

theorem lookup_eq_none_of_not_mem {β : Type} (k : ℤ) :
    ∀ l : List (ℤ × β), k ∉ l.map Prod.fst → l.lookup k = none
  | [], _ => rfl
  | (k', v) :: rest, h => by
      have hk : k ≠ k' := fun e => h (by simp [e])
      have hr : k ∉ rest.map Prod.fst := fun e => h (by simp [e])
      have hb : (k == k') = false := by simpa using hk
      simp [List.lookup, hb, lookup_eq_none_of_not_mem k rest hr]

/-- C2: `WEATHER_CODE_MAP` has 28 distinct keys; for an integer code that is none of them
`weatherText` returns "Unknown" and `weatherIcon` returns "🌈"; for a key they return
the text and icon of its entry; code 3 gives "Overcast" and "☁️". -/
theorem weatherText_weatherIcon_spec (code : ℤ) :
    (weatherCodes.length = 28 ∧ weatherCodes.Nodup) ∧
    (code ∉ weatherCodes → weatherText code = "Unknown" ∧ weatherIcon code = "🌈") ∧
    (∀ e : CodeEntry, (code, e) ∈ WEATHER_CODE_MAP →
      weatherText code = e.text ∧ weatherIcon code = e.icon) ∧
    weatherText 3 = "Overcast" ∧ weatherIcon 3 = "☁️" := by
  refine ⟨⟨by decide, by decide⟩, ?_, ?_, by decide, by decide⟩
  · intro h
    have hl := lookup_eq_none_of_not_mem code WEATHER_CODE_MAP h
    simp [weatherText, weatherIcon, hl]
  · intro e he
    simp only [WEATHER_CODE_MAP, List.mem_cons, Prod.mk.injEq, List.mem_singleton,
      List.not_mem_nil, or_false] at he
    rcases he with h | h | h | h | h | h | h | h | h | h | h | h | h | h | h | h | h | h | h
      | h | h | h | h | h | h | h | h | h <;>
    · obtain ⟨rfl, rfl⟩ := h
      exact ⟨by decide, by decide⟩

/-- C2 at concrete codes: 4 is no key and falls back, 3 is a key and reads its entry. -/
theorem weatherText_weatherIcon_spec_witness :
    (weatherText 4 = "Unknown" ∧ weatherIcon 4 = "🌈") ∧
    (weatherText 3 = "Overcast" ∧ weatherIcon 3 = "☁️") :=
  ⟨(weatherText_weatherIcon_spec 4).2.1 (by decide),
   (weatherText_weatherIcon_spec 3).2.2.1 ⟨"Overcast", "☁️"⟩ (by decide)⟩

/-! ## Search: validation, failure, zero and one result -/

theorem jsTrim_blank (s : String) (h : ∀ c ∈ s.data, isJsSpace c = true) : jsTrim s = "" := by
  have h1 : s.data.dropWhile isJsSpace = [] := by
    rw [List.dropWhile_eq_nil_iff]
    exact h
  simp [jsTrim, h1]

theorem prop_results_arr_truthy (data : JVal) (xs : List JVal)
    (h : data.prop "results" = JVal.arr xs) : data.truthy = true := by
  cases data <;> simp_all [JVal.prop, JVal.truthy]

/-- C3: for every prior state and every query string that is empty or all white space,
`handleSearch` sends no request and ends with the error "Enter a city name.", with
`weather`, `places` and `selected` null; `loading` and the storage are left as they were. -/
theorem handleSearch_blank (env : Env) (w : World) (s : String)
    (hcity : w.ui.city = JVal.str s) (hblank : ∀ c ∈ s.data, isJsSpace c = true) :
    (handleSearch env w).sent = w.sent ∧
    (handleSearch env w).ui.error = "Enter a city name." ∧
    (handleSearch env w).ui.weather = JVal.null ∧
    (handleSearch env w).ui.places = none ∧
    (handleSearch env w).ui.selected = JVal.null ∧
    (handleSearch env w).ui.loading = w.ui.loading ∧
    (handleSearch env w).store = w.store := by
  simp [handleSearch, hcity, jsTrim_blank s hblank]

theorem handleSearch_failed (env : Env) (w : World) (s : String)
    (hcity : w.ui.city = JVal.str s) (hq : jsTrim s ≠ "")
    (hfail : env.net (Request.geocode (jsTrim s)) = FetchOutcome.networkError ∨
      (∃ b, env.net (Request.geocode (jsTrim s)) = FetchOutcome.response false b) ∨
      env.net (Request.geocode (jsTrim s)) = FetchOutcome.response true none) :
    handleSearch env w = lookupFailed
      { ui := { w.ui with error := "", weather := JVal.null, places := none,
                          selected := JVal.null, loading := true },
        store := w.store, sent := w.sent ++ [Request.geocode (jsTrim s)] } := by
  rcases hfail with h | ⟨b, h⟩ | h <;> simp [handleSearch, hcity, hq, h]

/-- C5 (amended): for every prior state and every non-empty query whose geocoding request
fails (network error, non-success status, or a body that is not JSON), `handleSearch` sends
that one request, shows the generic lookup error, and ends with `weather` null: the weather
shown before is cleared at the start of the call. `places` and `selected` are null, `loading`
is false and the storage is unchanged. -/
theorem handleSearch_geocoding_failure (env : Env) (w : World) (s : String)
    (hcity : w.ui.city = JVal.str s) (hq : jsTrim s ≠ "")
    (hfail : env.net (Request.geocode (jsTrim s)) = FetchOutcome.networkError ∨
      (∃ b, env.net (Request.geocode (jsTrim s)) = FetchOutcome.response false b) ∨
      env.net (Request.geocode (jsTrim s)) = FetchOutcome.response true none) :
    (handleSearch env w).ui.error
        = "Failed to look up the city. Check your network and try again." ∧
    (handleSearch env w).ui.weather = JVal.null ∧
    (handleSearch env w).ui.places = none ∧
    (handleSearch env w).ui.selected = JVal.null ∧
    (handleSearch env w).ui.loading = false ∧
    (handleSearch env w).sent = w.sent ++ [Request.geocode (jsTrim s)] ∧
    (handleSearch env w).store = w.store := by
  rw [handleSearch_failed env w s hcity hq hfail]
  simp [lookupFailed]

theorem handleSearch_zero (env : Env) (w : World) (s : String)
    (fs : List (String × JVal))
    (hcity : w.ui.city = JVal.str s) (hq : jsTrim s ≠ "")
    (hgeo : env.net (Request.geocode (jsTrim s))
      = FetchOutcome.response true (some (JVal.obj fs)))
    (hzero : lookupField "results" fs = JVal.undefined ∨
      lookupField "results" fs = JVal.arr []) :
    handleSearch env w =
      { ui := { w.ui with error := "No places found. Try a different query.",
                          weather := JVal.null, places := some [], selected := JVal.null,
                          loading := false },
        store := w.store, sent := w.sent ++ [Request.geocode (jsTrim s)] } := by
  rcases hzero with h | h <;>
    simp [handleSearch, hcity, hq, hgeo, geoResults, JVal.prop, h, JVal.truthy, JVal.isNum]

/-- C4 (amended): for every prior state and every non-empty query whose geocoding answer is
a JSON object with no `results` field or an empty `results` array, `handleSearch` ends with
`weather` null, `places` the empty list (the empty-results box shows) and the error
"No places found. Try a different query." (the error region shows too); `selected` is null,
`loading` is false, and the geocoding request is the only one sent. -/
theorem handleSearch_zero_results (env : Env) (w : World) (s : String)
    (fs : List (String × JVal))
    (hcity : w.ui.city = JVal.str s) (hq : jsTrim s ≠ "")
    (hgeo : env.net (Request.geocode (jsTrim s))
      = FetchOutcome.response true (some (JVal.obj fs)))
    (hzero : lookupField "results" fs = JVal.undefined ∨
      lookupField "results" fs = JVal.arr []) :
    (handleSearch env w).ui.weather = JVal.null ∧
    (handleSearch env w).ui.places = some [] ∧
    emptyShown (handleSearch env w).ui = true ∧
    (handleSearch env w).ui.error = "No places found. Try a different query." ∧
    errorShown (handleSearch env w).ui = true ∧
    (handleSearch env w).ui.selected = JVal.null ∧
    (handleSearch env w).ui.loading = false ∧
    (handleSearch env w).sent = w.sent ++ [Request.geocode (jsTrim s)] := by
  rw [handleSearch_zero env w s fs hcity hq hgeo hzero]
  simp [emptyShown, errorShown]

theorem fetchWeather_sent (env : Env) (snap : State) (lat lon place : JVal) (w : World) :
    (fetchWeather env snap lat lon place w).sent = w.sent ++ [Request.forecast lat lon] := by
  unfold fetchWeather
  split <;> [split; skip] <;> rfl

theorem fetchWeather_places (env : Env) (snap : State) (lat lon place : JVal) (w : World) :
    (fetchWeather env snap lat lon place w).ui.places = w.ui.places := by
  unfold fetchWeather
  split <;> [split; skip] <;> rfl

theorem fetchWeather_selected (env : Env) (snap : State) (lat lon place : JVal) (w : World) :
    (fetchWeather env snap lat lon place w).ui.selected = w.ui.selected := by
  unfold fetchWeather
  split <;> [split; skip] <;> rfl

theorem pickPlace_latitude (p : JVal) : (pickPlace p).prop "latitude" = p.prop "latitude" := by
  have h1 : ¬ ("name" = "latitude") := by decide
  have h2 : ¬ ("country" = "latitude") := by decide
  have h3 : ¬ ("admin1" = "latitude") := by decide
  simp only [pickPlace, JVal.prop, lookupField, h1, h2, h3, if_true, if_false]

theorem pickPlace_longitude (p : JVal) : (pickPlace p).prop "longitude" = p.prop "longitude" := by
  have h1 : ¬ ("name" = "longitude") := by decide
  have h2 : ¬ ("country" = "longitude") := by decide
  have h3 : ¬ ("admin1" = "longitude") := by decide
  have h4 : ¬ ("latitude" = "longitude") := by decide
  simp only [pickPlace, JVal.prop, lookupField, h1, h2, h3, h4, if_true, if_false]

theorem handleSearch_of_response (env : Env) (w : World) (s : String) (data : JVal)
    (hcity : w.ui.city = JVal.str s) (hq : jsTrim s ≠ "")
    (hgeo : env.net (Request.geocode (jsTrim s)) = FetchOutcome.response true (some data)) :
    handleSearch env w = geoResults env w.ui data
      { ui := { w.ui with error := "", weather := JVal.null, places := none,
                          selected := JVal.null, loading := true },
        store := w.store, sent := w.sent ++ [Request.geocode (jsTrim s)] } := by
  simp [handleSearch, hcity, hq, hgeo]

theorem prop_obj (fs : List (String × JVal)) (k : String) :
    (JVal.obj fs).prop k = lookupField k fs := rfl

theorem prop_arr_length (xs : List JVal) :
    (JVal.arr xs).prop "length" = JVal.num xs.length := by
  simp [JVal.prop]

theorem prop_arr_zero (xs : List JVal) :
    (JVal.arr xs).prop "0" = xs.headD JVal.undefined := by
  have h : ¬ ("0" = "length") := by decide
  simp [JVal.prop, h]

theorem geoResults_single (env : Env) (snap : State) (data p : JVal) (w : World)
    (hres : data.prop "results" = JVal.arr [p]) (hd : data.truthy = true)
    (hp : p.nullish = false) :
    geoResults env snap data w =
      { fetchWeather env snap ((pickPlace p).prop "latitude") ((pickPlace p).prop "longitude")
          (pickPlace p) { w with ui := { w.ui with selected := pickPlace p } } with
        ui := { (fetchWeather env snap ((pickPlace p).prop "latitude")
          ((pickPlace p).prop "longitude") (pickPlace p)
          { w with ui := { w.ui with selected := pickPlace p } }).ui with loading := false } } := by
  have ht : (JVal.arr [p]).truthy = true := rfl
  unfold geoResults
  simp only [hres, hd, ht, prop_arr_length, prop_arr_zero, JVal.isNum,
    List.length_singleton, List.headD, hp]
  norm_num

theorem geoResults_many (env : Env) (snap : State) (data : JVal) (xs : List JVal) (w : World)
    (hres : data.prop "results" = JVal.arr xs) (hlen : 2 ≤ xs.length)
    (hnn : xs.any JVal.nullish = false) :
    geoResults env snap data w =
      { w with ui := { w.ui with places := some (xs.map formatRow), loading := false } } := by
  have hd := prop_results_arr_truthy data xs hres
  have ht : (JVal.arr xs).truthy = true := rfl
  have h0 : ¬ ((xs.length : ℚ) = 0) := by
    have : xs.length ≠ 0 := by omega
    simpa using this
  have h1 : ¬ ((xs.length : ℚ) = 1) := by
    have : xs.length ≠ 1 := by omega
    simpa using this
  unfold geoResults
  simp only [hres, hd, ht, prop_arr_length, JVal.isNum, hnn]
  simp [h0, h1]

/-- C9: for every prior state and every non-empty query whose geocoding answer has a
`results` array with exactly one candidate `p` (not `null`), `handleSearch` ends with `places`
null, sets `selected` to the candidate's name, country, admin1, latitude and longitude, and
sends, after the geocoding request, exactly one forecast request, for the candidate's
latitude and longitude as they came. -/
theorem handleSearch_single_result (env : Env) (w : World) (s : String) (data p : JVal)
    (hcity : w.ui.city = JVal.str s) (hq : jsTrim s ≠ "")
    (hgeo : env.net (Request.geocode (jsTrim s)) = FetchOutcome.response true (some data))
    (hres : data.prop "results" = JVal.arr [p]) (hp : p.nullish = false) :
    (handleSearch env w).ui.places = none ∧
    listShown (handleSearch env w).ui = false ∧
    (handleSearch env w).ui.selected = JVal.obj
      [ ("name", p.prop "name"), ("country", p.prop "country"), ("admin1", p.prop "admin1"),
        ("latitude", p.prop "latitude"), ("longitude", p.prop "longitude") ] ∧
    (handleSearch env w).sent = w.sent ++
      [Request.geocode (jsTrim s), Request.forecast (p.prop "latitude") (p.prop "longitude")] := by
  have hd := prop_results_arr_truthy data [p] hres
  rw [handleSearch_of_response env w s data hcity hq hgeo,
    geoResults_single env w.ui data p _ hres hd hp]
  simp only [fetchWeather_sent, fetchWeather_places, fetchWeather_selected, listShown,
    pickPlace_latitude, pickPlace_longitude, List.append_assoc, List.singleton_append]
  exact ⟨trivial, trivial, rfl, trivial⟩

/-! ## The weather fetch and the saved place -/

theorem lookupField_toJsonFields_skip (k k' : String) (v : JVal) (fs : List (String × JVal))
    (h : k' ≠ k) :
    lookupField k (toJsonFields ((k', v) :: fs)) = lookupField k (toJsonFields fs) := by
  cases v <;> simp [toJsonFields, lookupField, h]

theorem lookupField_toJsonFields_hit (k : String) (v : JVal) (fs : List (String × JVal))
    (h : v ≠ JVal.undefined) :
    lookupField k (toJsonFields ((k, v) :: fs)) = v.toJson := by
  cases v <;> simp_all [toJsonFields, lookupField]

theorem coalesce_ne_undefined (a b : JVal) (hb : b ≠ JVal.undefined) :
    a.coalesce b ≠ JVal.undefined := by
  cases a <;> simp_all [JVal.coalesce, JVal.nullish]

theorem toJson_num (q : ℚ) : (JVal.num q).toJson = JVal.num q := by
  simp [JVal.toJson]

theorem truthy_current_weather (data : JVal)
    (h : (data.prop "current_weather").truthy = true) : data.truthy = true := by
  have h1 : ¬ ("current_weather" = "length") := by decide
  have h2 : ¬ ("current_weather" = "0") := by decide
  cases data <;> simp_all [JVal.prop, JVal.truthy]

theorem fetchWeather_success (env : Env) (snap : State) (lat lon place data : JVal) (w : World)
    (hnet : env.net (Request.forecast lat lon) = FetchOutcome.response true (some data))
    (hcw : (data.prop "current_weather").truthy = true) :
    fetchWeather env snap lat lon place w =
      { ui := { w.ui with
          loading := false, error := "",
          weather := JVal.obj
            (((data.prop "current_weather").spread.filter (fun f => f.1 ≠ "place"))
              ++ [("place", place)]) },
        store := saveLast env w.store (jsonRecord
          [ ("name", ((place.prop "name").coalesce (snap.selected.prop "name")).coalesce snap.city),
            ("country", (place.prop "country").coalesce (snap.selected.prop "country")),
            ("admin1", (place.prop "admin1").coalesce (snap.selected.prop "admin1")),
            ("latitude", lat),
            ("longitude", lon) ]),
        sent := w.sent ++ [Request.forecast lat lon] } := by
  have hd := truthy_current_weather data hcw
  unfold fetchWeather
  simp only [hnet, hd, hcw]
  rfl

/-- C7: for every call `fetchWeather(lat, lon, place)` with numeric coordinates whose answer is
successful and has `current_weather` (and whose `setItem` does not throw), the record stored
under `wn_last` has `latitude` equal to `lat` and `longitude` equal to `lon`, whatever `place`
and `selected` hold, and its `name` is `place.name` when that is not nullish, else
`selected.name` when that is not nullish, else the query text `city`. -/
theorem fetchWeather_saves_coordinates (env : Env) (snap : State) (a b : ℚ)
    (place data : JVal) (w : World) (c : String)
    (hnet : env.net (Request.forecast (JVal.num a) (JVal.num b))
      = FetchOutcome.response true (some data))
    (hcw : (data.prop "current_weather").truthy = true)
    (hset : env.setItemThrows = false)
    (hcity : snap.city = JVal.str c) :
    ∃ r : JVal,
      (fetchWeather env snap (JVal.num a) (JVal.num b) place w).store.wn_last
        = some (StoredJson.json r) ∧
      r.prop "latitude" = JVal.num a ∧
      r.prop "longitude" = JVal.num b ∧
      r.prop "name" =
        (if (place.prop "name").nullish = false then place.prop "name"
         else if (snap.selected.prop "name").nullish = false then snap.selected.prop "name"
         else JVal.str c).toJson := by
  rw [fetchWeather_success env snap _ _ place data w hnet hcw]
  refine ⟨_, by simp only [saveLast, hset, jsonRecord]; rfl, ?_, ?_, ?_⟩
  · rw [prop_obj,
      lookupField_toJsonFields_skip _ _ _ _ (by decide),
      lookupField_toJsonFields_skip _ _ _ _ (by decide),
      lookupField_toJsonFields_skip _ _ _ _ (by decide),
      lookupField_toJsonFields_hit _ _ _ (by simp), toJson_num]
  · rw [prop_obj,
      lookupField_toJsonFields_skip _ _ _ _ (by decide),
      lookupField_toJsonFields_skip _ _ _ _ (by decide),
      lookupField_toJsonFields_skip _ _ _ _ (by decide),
      lookupField_toJsonFields_skip _ _ _ _ (by decide),
      lookupField_toJsonFields_hit _ _ _ (by simp), toJson_num]
  · rw [prop_obj, lookupField_toJsonFields_hit _ _ _
      (coalesce_ne_undefined _ _ (by simp [hcity])), hcity]
    congr 1
    simp only [JVal.coalesce]
    cases h1 : (place.prop "name").nullish <;> cases h2 : (snap.selected.prop "name").nullish <;>
      simp [h1, h2]

/-- C8: for every call `fetchWeather(lat, lon, place)` that does not succeed, the storage
(so the `wn_last` record) is unchanged and `weather` ends null. When the request throws, the
status is not a success or the body is not JSON, the error is "Failed to fetch weather. Try
again."; when the body is JSON without `current_weather`, the error is the different message
"Weather data unavailable for this location.". -/
theorem fetchWeather_failure_keeps_store (env : Env) (snap : State) (lat lon place : JVal)
    (w : World)
    (hfail : ¬ ∃ data, env.net (Request.forecast lat lon)
        = FetchOutcome.response true (some data) ∧
      (data.prop "current_weather").truthy = true) :
    (fetchWeather env snap lat lon place w).store = w.store ∧
    (fetchWeather env snap lat lon place w).ui.weather = JVal.null ∧
    ((∀ data, env.net (Request.forecast lat lon) ≠ FetchOutcome.response true (some data)) →
      (fetchWeather env snap lat lon place w).ui.error = "Failed to fetch weather. Try again.") ∧
    (∀ data, env.net (Request.forecast lat lon) = FetchOutcome.response true (some data) →
      (fetchWeather env snap lat lon place w).ui.error
        = "Weather data unavailable for this location.") ∧
    "Failed to fetch weather. Try again." ≠ "Weather data unavailable for this location." := by
  refine ⟨?_, ?_, ?_, ?_, by decide⟩
  · unfold fetchWeather
    split
    · next data hnet =>
        have hcw : (data.prop "current_weather").truthy = false := by
          cases h : (data.prop "current_weather").truthy
          · rfl
          · exact absurd ⟨data, hnet, h⟩ hfail
        simp [hcw]
    · rfl
  · unfold fetchWeather
    split
    · next data hnet =>
        have hcw : (data.prop "current_weather").truthy = false := by
          cases h : (data.prop "current_weather").truthy
          · rfl
          · exact absurd ⟨data, hnet, h⟩ hfail
        simp [hcw]
    · rfl
  · intro hno
    unfold fetchWeather
    split
    · next data hnet => exact absurd hnet (hno data)
    · rfl
  · intro data hnet
    have hcw : (data.prop "current_weather").truthy = false := by
      cases h : (data.prop "current_weather").truthy
      · rfl
      · exact absurd ⟨data, hnet, h⟩ hfail
    unfold fetchWeather
    simp [hnet, hcw]

/-! ## Display invariants -/

theorem fetchWeather_error_or_weather (env : Env) (snap : State) (lat lon place : JVal)
    (w : World) :
    ¬ (weatherShown (fetchWeather env snap lat lon place w).ui = true ∧
       errorShown (fetchWeather env snap lat lon place w).ui = true) := by
  unfold fetchWeather
  split <;> [split; skip] <;> simp [weatherShown, errorShown, JVal.truthy]

theorem atMostOneShown_of_places_none (s : State) (h : s.places = none)
    (hwe : ¬ (weatherShown s = true ∧ errorShown s = true)) : atMostOneShown s := by
  simp [atMostOneShown, listShown, h] at *
  exact hwe

theorem atMostOneShown_of_weather_null (s : State) (h : s.weather = JVal.null)
    (hle : ¬ (listShown s = true ∧ errorShown s = true)) : atMostOneShown s := by
  simp [atMostOneShown, weatherShown, h, JVal.truthy] at *
  exact hle

theorem natCast_two_le (n : ℕ) (h0 : ¬ ((n : ℚ) = 0)) (h1 : ¬ ((n : ℚ) = 1)) : 2 ≤ n := by
  have a0 : n ≠ 0 := fun e => h0 (by simp [e])
  have a1 : n ≠ 1 := fun e => h1 (by simp [e])
  omega

theorem geoResults_shown (env : Env) (snap : State) (data : JVal) (w : World)
    (hp : w.ui.places = none) (hwe : w.ui.weather = JVal.null) (he : w.ui.error = "") :
    atMostOneShown (geoResults env snap data w).ui ∧
    rowsReadable (geoResults env snap data w).ui ∧
    (listShown (geoResults env snap data w).ui = true →
      ∃ xs, data.prop "results" = JVal.arr xs ∧ 2 ≤ xs.length) := by
  have hfail : atMostOneShown (lookupFailed w).ui ∧ rowsReadable (lookupFailed w).ui ∧
      (listShown (lookupFailed w).ui = true →
        ∃ xs, data.prop "results" = JVal.arr xs ∧ 2 ≤ xs.length) := by
    simp [lookupFailed, atMostOneShown, rowsReadable, listShown, weatherShown, hp, hwe,
      JVal.truthy]
  simp only [geoResults]
  split_ifs with h0 h1 h2
  · simp [atMostOneShown, rowsReadable, listShown, weatherShown, hwe, JVal.truthy]
  · exact hfail
  · refine ⟨atMostOneShown_of_places_none _ ?_ ?_, ?_, ?_⟩
    · simp [fetchWeather_places, hp]
    · have := fetchWeather_error_or_weather env snap
        ((pickPlace (JVal.prop (JVal.prop data "results") "0")).prop "latitude")
        ((pickPlace (JVal.prop (JVal.prop data "results") "0")).prop "longitude")
        (pickPlace (JVal.prop (JVal.prop data "results") "0"))
        { w with ui := { w.ui with
            selected := pickPlace (JVal.prop (JVal.prop data "results") "0") } }
      simpa [weatherShown, errorShown] using this
    · simp [rowsReadable, fetchWeather_places, hp]
    · simp [listShown, fetchWeather_places, hp]
  · split
    · next xs hxs =>
        split_ifs with h3
        · exact hfail
        · refine ⟨atMostOneShown_of_weather_null _ (by simp [hwe]) ?_, ?_, ?_⟩
          · simp [errorShown, he]
          · intro rows hrows r hr
            simp only [Option.some.injEq] at hrows
            subst hrows
            simp only [List.mem_map] at hr
            obtain ⟨x, _, rfl⟩ := hr
            rfl
          · intro _
            refine ⟨xs, hxs, ?_⟩
            simp only [hxs, prop_arr_length, JVal.isNum, decide_eq_true_eq, Bool.or_eq_true,
              not_or] at h0 h1
            exact natCast_two_le _ h0.2 h1
    · exact hfail

theorem handleSearch_shown (env : Env) (w : World) :
    atMostOneShown (handleSearch env w).ui ∧
    rowsReadable (handleSearch env w).ui ∧
    (listShown (handleSearch env w).ui = true →
      ∃ q n, searchQuery w.ui.city = some q ∧
        resultCount (env.net (Request.geocode q)) = some n ∧ 2 ≤ n) := by
  unfold handleSearch
  split
  · next s hs =>
      simp only []
      split_ifs with hq
      · simp [atMostOneShown, rowsReadable, listShown, weatherShown, JVal.truthy]
      · split
        · next data hnet =>
            have h := geoResults_shown env w.ui data
              { ui := { w.ui with error := "", weather := JVal.null, places := none,
                                  selected := JVal.null, loading := true },
                store := w.store, sent := w.sent ++ [Request.geocode (jsTrim s)] } rfl rfl rfl
            refine ⟨h.1, h.2.1, fun hl => ?_⟩
            obtain ⟨xs, hxs, hlen⟩ := h.2.2 hl
            refine ⟨jsTrim s, xs.length, by simp [searchQuery, hs, hq], ?_, hlen⟩
            simp [hnet, resultCount, hxs]
        · simp [lookupFailed, atMostOneShown, rowsReadable, listShown, weatherShown,
            JVal.truthy]
  · simp [atMostOneShown, rowsReadable, listShown, weatherShown, JVal.truthy]
  · simp [atMostOneShown, rowsReadable, listShown, weatherShown, JVal.truthy]
  · simp [atMostOneShown, rowsReadable, listShown, weatherShown, JVal.truthy]

theorem handleSelectPlace_shown (env : Env) (p : JVal) (w : World) (hp : p.nullish = false) :
    atMostOneShown (handleSelectPlace env p w).ui ∧
    (handleSelectPlace env p w).ui.places = none := by
  simp only [handleSelectPlace, hp]
  have hpl : (fetchWeather env w.ui ((pickPlace p).prop "latitude")
      ((pickPlace p).prop "longitude") (pickPlace p)
      { w with ui := { w.ui with selected := pickPlace p, places := none } }).ui.places
      = none := by
    rw [fetchWeather_places]
  exact ⟨atMostOneShown_of_places_none _ hpl (fetchWeather_error_or_weather _ _ _ _ _ _), hpl⟩

theorem loadLast_shown (env : Env) (st : Storage) :
    atMostOneShown (loadLast env (bootWorld st)).ui ∧
    (loadLast env (bootWorld st)).ui.places = none := by
  unfold loadLast
  split
  · split_ifs
    · have hpl : ∀ (lat lon place : JVal) (w : World), w.ui.places = none →
          (fetchWeather env (bootWorld st).ui lat lon place w).ui.places = none := by
        intro lat lon place w hw
        rw [fetchWeather_places, hw]
      exact ⟨atMostOneShown_of_places_none _ (hpl _ _ _ _ rfl)
        (fetchWeather_error_or_weather _ _ _ _ _ _), hpl _ _ _ _ rfl⟩
    · simp [bootWorld, bootState, atMostOneShown, listShown, weatherShown, errorShown,
        JVal.truthy]
  · simp [bootWorld, bootState, atMostOneShown, listShown, weatherShown, errorShown,
      JVal.truthy]

theorem mount_flags (env : Env) (w : World) :
    (mount env w).ui.places = (loadLast env w).ui.places ∧
    (mount env w).ui.weather = (loadLast env w).ui.weather ∧
    (mount env w).ui.error = (loadLast env w).ui.error ∧
    (mount env w).ui.selected = (loadLast env w).ui.selected ∧
    (mount env w).ui.city = (loadLast env w).ui.city ∧
    (mount env w).sent = (loadLast env w).sent := by
  unfold mount syncUnit
  cases w.store.wn_unit <;> cases env.setItemThrows <;> simp <;> split_ifs <;> simp

theorem atMostOneShown_congr (s t : State) (hp : s.places = t.places)
    (hw : s.weather = t.weather) (he : s.error = t.error) (h : atMostOneShown t) :
    atMostOneShown s := by
  simpa [atMostOneShown, listShown, weatherShown, errorShown, hp, hw, he] using h

theorem toggleUnit_flags (env : Env) (u : String) (w : World) :
    (toggleUnit env u w).ui.places = w.ui.places ∧
    (toggleUnit env u w).ui.weather = w.ui.weather ∧
    (toggleUnit env u w).ui.error = w.ui.error := by
  unfold toggleUnit syncUnit
  cases env.setItemThrows <;> simp

/-- Invariant of the reachable states: at most one region shows, the rows of the list are
readable, and a shown list is justified by the last geocoding answer. -/
theorem reachable_invariant (s : Sys) (h : Reachable s) :
    atMostOneShown s.world.ui ∧ rowsReadable s.world.ui ∧ listJustified s := by
  induction h with
  | boot st =>
      simp [bootSys, bootWorld, bootState, atMostOneShown, rowsReadable, listJustified,
        listShown, weatherShown, errorShown, JVal.truthy]
  | mounted env st =>
      obtain ⟨hp, hw, he, _, _, _⟩ := mount_flags env (bootWorld st)
      obtain ⟨h1, h2⟩ := loadLast_shown env st
      refine ⟨atMostOneShown_congr _ _ hp hw he h1, ?_, ?_⟩
      · simp [rowsReadable, mountSys, hp, h2]
      · simp [listJustified, mountSys, listShown, hp, h2]
  | next e s _ ih =>
      obtain ⟨ih1, ih2, ih3⟩ := ih
      cases e with
      | search env =>
          obtain ⟨h1, h2, h3⟩ := handleSearch_shown env s.world
          refine ⟨h1, h2, fun hl => ?_⟩
          obtain ⟨q, n, hq, hn, h2n⟩ := h3 hl
          exact ⟨env.net (Request.geocode q), n, by simp [step, hq], hn, h2n,
            by simp [step, hq]⟩
      | select env i =>
          simp only [step]
          cases hrow : clickedRow s.world.ui i with
          | none => exact ⟨ih1, ih2, ih3⟩
          | some p =>
              have hp : p.nullish = false := by
                unfold clickedRow at hrow
                cases hpl : s.world.ui.places with
                | none => simp [hpl] at hrow
                | some rows =>
                    simp only [hpl] at hrow
                    exact ih2 rows hpl p (List.get?_mem hrow)
              obtain ⟨h1, h2⟩ := handleSelectPlace_shown env p s.world hp
              refine ⟨h1, ?_, ?_⟩
              · simp [rowsReadable, h2]
              · simp [listJustified, listShown, h2]
      | unit env u =>
          obtain ⟨hp, hw, he⟩ := toggleUnit_flags env u s.world
          refine ⟨atMostOneShown_congr _ _ hp hw he ih1, ?_, ?_⟩
          · simpa [rowsReadable, step, hp] using ih2
          · simpa [listJustified, step, listShown, hp] using ih3
      | type text =>
          exact ⟨ih1, ih2, ih3⟩

/-- C10: in every state reachable from the first render by mount and then user events run
one at a time (search with any geocoding and weather answers, a click on a listed candidate,
a unit toggle, typing), at most one of the disambiguation list, the weather card and the
error region shows; and the list shows only when the answer to the last geocoding request
had at least 2 results and no candidate has been chosen since. -/
theorem reachable_at_most_one_shown (s : Sys) (h : Reachable s) :
    atMostOneShown s.world.ui ∧
    (listShown s.world.ui = true →
      ∃ o n, s.ghost.lastGeo = some o ∧ resultCount o = some n ∧ 2 ≤ n ∧
        s.ghost.chosen = false) :=
  ⟨(reachable_invariant s h).1, (reachable_invariant s h).2.2⟩

/-! ## Mount -/

theorem mount_restores_saved_place (env : Env) (st : Storage) (o : JVal)
    (hlast : st.wn_last = some (StoredJson.json o))
    (hlat : (o.prop "latitude").truthy = true) (hlon : (o.prop "longitude").truthy = true) :
    (mount env (bootWorld st)).ui.selected = o ∧
    (mount env (bootWorld st)).ui.city = (o.prop "name").orElse (JVal.str "") ∧
    (mount env (bootWorld st)).sent
      = [Request.forecast (o.prop "latitude") (o.prop "longitude")] := by
  obtain ⟨_, _, _, hs, hc, hsent⟩ := mount_flags env (bootWorld st)
  rw [hs, hc, hsent]
  have hl : loadLast env (bootWorld st) =
      fetchWeather env (bootWorld st).ui (o.prop "latitude") (o.prop "longitude") o
        { bootWorld st with ui := { (bootWorld st).ui with
            city := (o.prop "name").orElse (JVal.str ""), selected := o } } := by
    simp [loadLast, bootWorld, hlast, hlat, hlon]
  rw [hl, fetchWeather_selected, fetchWeather_sent]
  refine ⟨rfl, ?_, rfl⟩
  unfold fetchWeather
  split <;> [split; skip] <;> rfl

theorem mount_ignores_unusable_record (env : Env) (st : Storage)
    (habsent : st.wn_last = none ∨ st.wn_last = some StoredJson.unparsable ∨
      ∃ o, st.wn_last = some (StoredJson.json o) ∧
        (o.prop "latitude" = JVal.undefined ∨ o.prop "longitude" = JVal.undefined)) :
    (mount env (bootWorld st)).ui.selected = JVal.null ∧
    (mount env (bootWorld st)).ui.city = JVal.str "" ∧
    (mount env (bootWorld st)).ui.weather = JVal.null ∧
    (mount env (bootWorld st)).ui.error = "" ∧
    (mount env (bootWorld st)).sent = [] := by
  obtain ⟨_, hw, he, hs, hc, hsent⟩ := mount_flags env (bootWorld st)
  rw [hs, hc, hsent, hw, he]
  have hl : loadLast env (bootWorld st) = bootWorld st := by
    rcases habsent with h | h | ⟨o, h, h2 | h2⟩
    · simp [loadLast, bootWorld, h]
    · simp [loadLast, bootWorld, h]
    · simp [loadLast, bootWorld, h, h2, JVal.truthy]
    · simp [loadLast, bootWorld, h, h2, JVal.truthy]
  rw [hl]
  simp [bootWorld, bootState]

/-- The equator record is what a successful search for the equator candidate stores. -/
theorem handleSearch_saves_equatorRecord :
    (handleSearch equatorEnv (typeCity "Mitad del Mundo" (bootWorld emptyStore))).store.wn_last
      = some (StoredJson.json equatorRecord) ∧
    weatherShown
      (handleSearch equatorEnv (typeCity "Mitad del Mundo" (bootWorld emptyStore))).ui = true := by
  rw [handleSearch_of_response equatorEnv _ "Mitad del Mundo"
      (JVal.obj [("results", JVal.arr [equatorResult])]) rfl (by decide) rfl,
    geoResults_single _ _ (JVal.obj [("results", JVal.arr [equatorResult])]) equatorResult _
      (by simp [JVal.prop, lookupField]) rfl rfl,
    fetchWeather_success _ _ _ _ _ overcastBody _ rfl
      (by simp [overcastBody, JVal.prop, lookupField, JVal.truthy])]
  constructor
  · simp [saveLast, equatorEnv, answeringEnv, jsonRecord, pickPlace, equatorResult, JVal.prop,
      lookupField, JVal.coalesce, JVal.nullish, toJsonFields, JVal.toJson, equatorRecord,
      typeCity, bootWorld, bootState, emptyStore]
  · simp [weatherShown, JVal.truthy]

/-- C6, at a saved record whose latitude is the number 0: the record is valid JSON with
numeric coordinates, yet mount leaves `selected` null, the input empty and sends nothing. -/
theorem mount_skips_zero_latitude :
    equatorStore.wn_last = some (StoredJson.json equatorRecord) ∧
    equatorRecord.prop "latitude" = JVal.num 0 ∧
    equatorRecord.prop "longitude" = JVal.num (-7845 / 100) ∧
    (mount offlineEnv (bootWorld equatorStore)).ui.selected = JVal.null ∧
    (mount offlineEnv (bootWorld equatorStore)).ui.city = JVal.str "" ∧
    (mount offlineEnv (bootWorld equatorStore)).sent = [] ∧
    (mount (answeringEnv JVal.null) (bootWorld equatorStore)).ui.weather = JVal.null ∧
    (mount (answeringEnv JVal.null) (bootWorld equatorStore)).sent = [] := by
  have h1 : equatorRecord.prop "latitude" = JVal.num 0 := by
    simp [equatorRecord, JVal.prop, lookupField]
  have h2 : equatorRecord.prop "longitude" = JVal.num (-7845 / 100) := by
    simp [equatorRecord, JVal.prop, lookupField]
  have hl : ∀ env, loadLast env (bootWorld equatorStore) = bootWorld equatorStore := by
    intro env
    simp [loadLast, bootWorld, equatorStore, h1, JVal.truthy]
  have hm : ∀ env, (mount env (bootWorld equatorStore)).ui.selected = JVal.null ∧
      (mount env (bootWorld equatorStore)).ui.city = JVal.str "" ∧
      (mount env (bootWorld equatorStore)).ui.weather = JVal.null ∧
      (mount env (bootWorld equatorStore)).sent = [] := by
    intro env
    obtain ⟨_, hw, _, hs, hc, hsent⟩ := mount_flags env (bootWorld equatorStore)
    rw [hs, hc, hsent, hw, hl env]
    simp [bootWorld, bootState]
  exact ⟨rfl, h1, h2, (hm _).1, (hm _).2.1, (hm _).2.2.2, (hm _).2.2.1, (hm _).2.2.2⟩

/-! ## The claims at sample inputs -/

theorem jsTrim_samples :
    jsTrim " London " = "London" ∧ jsTrim "Paris" = "Paris" ∧
    jsTrim "zzzzznotacity" = "zzzzznotacity" ∧ jsTrim "Springfield" = "Springfield" := by
  decide

/-- C3 at a sample input: weather for London is shown, the input holds blanks and a tab. -/
theorem handleSearch_blank_witness :
    (handleSearch londonEnv (londonShown " \t ")).sent = [] ∧
    (handleSearch londonEnv (londonShown " \t ")).ui.error = "Enter a city name." ∧
    (handleSearch londonEnv (londonShown " \t ")).ui.weather = JVal.null ∧
    (handleSearch londonEnv (londonShown " \t ")).ui.places = none ∧
    (handleSearch londonEnv (londonShown " \t ")).ui.selected = JVal.null ∧
    (handleSearch londonEnv (londonShown " \t ")).ui.loading = false :=
  have h := handleSearch_blank londonEnv (londonShown " \t ") " \t " rfl (by decide)
  ⟨h.1, h.2.1, h.2.2.1, h.2.2.2.1, h.2.2.2.2.1, h.2.2.2.2.2.1⟩

/-- C4 as stated fails: with London's weather shown and the query "zzzzznotacity" answered
by a well-formed body without results, the error message is not empty and the error region
is rendered. -/
theorem handleSearch_zero_results_counterexample :
    noMatchEnv.net (Request.geocode (jsTrim "zzzzznotacity"))
      = FetchOutcome.response true (some (JVal.obj [("generationtime_ms", JVal.num (1 / 2))])) ∧
    (handleSearch noMatchEnv (londonShown "zzzzznotacity")).ui.places = some [] ∧
    (handleSearch noMatchEnv (londonShown "zzzzznotacity")).ui.error ≠ "" ∧
    errorShown (handleSearch noMatchEnv (londonShown "zzzzznotacity")).ui = true := by
  have h := handleSearch_zero noMatchEnv (londonShown "zzzzznotacity") "zzzzznotacity"
    [("generationtime_ms", JVal.num (1 / 2))] rfl (by decide) rfl (Or.inl (by simp [lookupField]))
  rw [h]
  exact ⟨rfl, rfl, by decide, by decide⟩

/-- C4 (amended) at the same sample input. -/
theorem handleSearch_zero_results_witness :
    (handleSearch noMatchEnv (londonShown "zzzzznotacity")).ui.weather = JVal.null ∧
    (handleSearch noMatchEnv (londonShown "zzzzznotacity")).ui.places = some [] ∧
    (handleSearch noMatchEnv (londonShown "zzzzznotacity")).ui.error
      = "No places found. Try a different query." :=
  have h := handleSearch_zero_results noMatchEnv (londonShown "zzzzznotacity") "zzzzznotacity"
    [("generationtime_ms", JVal.num (1 / 2))] rfl (by decide) rfl (Or.inl (by simp [lookupField]))
  ⟨h.1, h.2.1, h.2.2.2.1⟩

/-- C5 as stated fails: with London's weather shown and the query "Paris" meeting a network
error, the weather after the call is null, not the weather shown before. -/
theorem handleSearch_geocoding_failure_counterexample :
    weatherShown (londonShown "Paris").ui = true ∧
    offlineEnv.net (Request.geocode (jsTrim "Paris")) = FetchOutcome.networkError ∧
    (handleSearch offlineEnv (londonShown "Paris")).ui.error
      = "Failed to look up the city. Check your network and try again." ∧
    (handleSearch offlineEnv (londonShown "Paris")).ui.weather = JVal.null ∧
    (handleSearch offlineEnv (londonShown "Paris")).ui.weather
      ≠ (londonShown "Paris").ui.weather := by
  have h := handleSearch_failed offlineEnv (londonShown "Paris") "Paris" rfl (by decide)
    (Or.inl rfl)
  rw [h]
  refine ⟨rfl, rfl, rfl, rfl, ?_⟩
  simp [lookupFailed, londonShown]

/-- C5 (amended) at the same sample input. -/
theorem handleSearch_geocoding_failure_witness :
    (handleSearch offlineEnv (londonShown "Paris")).ui.error
      = "Failed to look up the city. Check your network and try again." ∧
    (handleSearch offlineEnv (londonShown "Paris")).ui.weather = JVal.null ∧
    (handleSearch offlineEnv (londonShown "Paris")).sent = [Request.geocode (jsTrim "Paris")] :=
  have h := handleSearch_geocoding_failure offlineEnv (londonShown "Paris") "Paris" rfl
    (by decide) (Or.inl rfl)
  ⟨h.1, h.2.1, h.2.2.2.2.2.1⟩

/-- C7 at a sample input: the fetch is for London's coordinates while the `place` argument
is the equator candidate; the stored record carries the coordinates of the fetch. -/
theorem fetchWeather_saves_coordinates_witness :
    ∃ r : JVal,
      (fetchWeather londonEnv (londonShown "x").ui (JVal.num (5150853 / 100000))
        (JVal.num (-12574 / 100000)) equatorResult (londonShown "x")).store.wn_last
        = some (StoredJson.json r) ∧
      r.prop "latitude" = JVal.num (5150853 / 100000) ∧
      r.prop "longitude" = JVal.num (-12574 / 100000) ∧
      r.prop "name" = JVal.str "Mitad del Mundo" := by
  obtain ⟨r, h1, h2, h3, h4⟩ := fetchWeather_saves_coordinates londonEnv (londonShown "x").ui
    (5150853 / 100000) (-12574 / 100000) equatorResult overcastBody (londonShown "x") "x" rfl
    (by simp [overcastBody, JVal.prop, lookupField, JVal.truthy]) rfl rfl
  refine ⟨r, h1, h2, h3, ?_⟩
  rw [h4]
  simp [equatorResult, JVal.prop, lookupField, JVal.nullish, JVal.toJson]

/-- C8 at sample inputs: a network error, and a JSON answer without `current_weather`. -/
theorem fetchWeather_failure_keeps_store_witness :
    ((fetchWeather offlineEnv (londonShown "x").ui (JVal.num 1) (JVal.num 2) londonResult
        (londonShown "x")).store = (londonShown "x").store ∧
      (fetchWeather offlineEnv (londonShown "x").ui (JVal.num 1) (JVal.num 2) londonResult
        (londonShown "x")).ui.weather = JVal.null ∧
      (fetchWeather offlineEnv (londonShown "x").ui (JVal.num 1) (JVal.num 2) londonResult
        (londonShown "x")).ui.error = "Failed to fetch weather. Try again.") ∧
    ((fetchWeather unavailableEnv (londonShown "x").ui (JVal.num 1) (JVal.num 2) londonResult
        (londonShown "x")).store = (londonShown "x").store ∧
      (fetchWeather unavailableEnv (londonShown "x").ui (JVal.num 1) (JVal.num 2) londonResult
        (londonShown "x")).ui.error = "Weather data unavailable for this location.") := by
  have h := fetchWeather_failure_keeps_store offlineEnv (londonShown "x").ui (JVal.num 1)
    (JVal.num 2) londonResult (londonShown "x") (by simp [offlineEnv])
  have h' := fetchWeather_failure_keeps_store unavailableEnv (londonShown "x").ui (JVal.num 1)
    (JVal.num 2) londonResult (londonShown "x")
    (by simp [unavailableEnv, JVal.prop, lookupField, JVal.truthy])
  exact ⟨⟨h.1, h.2.1, h.2.2.1 (by simp [offlineEnv])⟩, h'.1, h'.2.2.2.1 _ rfl⟩

/-- C9 at a sample input: the query " London " finds London alone. -/
theorem handleSearch_single_result_witness :
    (handleSearch londonEnv (londonShown " London ")).ui.places = none ∧
    (handleSearch londonEnv (londonShown " London ")).ui.selected = JVal.obj
      [ ("name", JVal.str "London"), ("country", JVal.str "United Kingdom"),
        ("admin1", JVal.str "England"), ("latitude", JVal.num (5150853 / 100000)),
        ("longitude", JVal.num (-12574 / 100000)) ] ∧
    (handleSearch londonEnv (londonShown " London ")).sent =
      [Request.geocode "London",
       Request.forecast (JVal.num (5150853 / 100000)) (JVal.num (-12574 / 100000))] := by
  obtain ⟨h1, _, h3, h4⟩ := handleSearch_single_result londonEnv (londonShown " London ")
    " London " (JVal.obj [("results", JVal.arr [londonResult])]) londonResult rfl (by decide)
    rfl (by simp [JVal.prop, lookupField]) rfl
  refine ⟨h1, ?_, ?_⟩
  · rw [h3]
    simp [londonResult, JVal.prop, lookupField]
  · rw [h4, jsTrim_samples.1]
    simp [londonResult, JVal.prop, lookupField, londonShown]

theorem sampleRun_world :
    sampleRun.world.ui.places = some [formatRow londonResult, formatRow equatorResult] ∧
    sampleRun.world.ui.weather = JVal.null ∧ sampleRun.world.ui.error = "" := by
  have h : sampleRun.world = handleSearch twoMatchEnv
      (typeCity "Springfield" (mount londonEnv (bootWorld emptyStore))) := rfl
  rw [h, handleSearch_of_response twoMatchEnv _ "Springfield"
      (JVal.obj [("results", JVal.arr [londonResult, equatorResult])]) rfl (by decide) rfl,
    geoResults_many _ _ _ [londonResult, equatorResult] _ (by simp [JVal.prop, lookupField])
      (by simp) (by simp [londonResult, equatorResult, JVal.nullish])]
  simp

/-- C10 at a sample run: after mount, typing and a search with two matches the list shows,
nothing else does, and the last geocoding answer had two results. -/
theorem reachable_at_most_one_shown_witness :
    Reachable sampleRun ∧
    listShown sampleRun.world.ui = true ∧
    atMostOneShown sampleRun.world.ui ∧
    (∃ o n, sampleRun.ghost.lastGeo = some o ∧ resultCount o = some n ∧ 2 ≤ n ∧
      sampleRun.ghost.chosen = false) := by
  have hr : Reachable sampleRun :=
    Reachable.next _ _ (Reachable.next _ _ (Reachable.mounted londonEnv emptyStore))
  have hl : listShown sampleRun.world.ui = true := by
    simp [listShown, sampleRun_world.1]
  have h := reachable_at_most_one_shown sampleRun hr
  exact ⟨hr, hl, h.1, h.2 hl⟩

end WeatherNow
